import Mathlib

/-!
Verification development for the voice-agent service.

This file gives a shallow embedding of the conversational core of the
repository: the in-memory session store and `chat` of
`core/gemini_service.py`, the transcription fallback chain and the
text-to-speech call of `core/elevenlabs_service.py`, the request/response
pipeline of `routes/voice.py`, and the per-frame behaviour of the
WebSocket handler of `routes/websocket_voice.py`.  Remote provider calls
(Gemini, ElevenLabs) are opaque in the source, so they appear here as
function parameters returning `Except`; everything else is translated
directly from the Python source.
-/

deriving instance DecidableEq for Except

/-- A message as stored in the Gemini session store `_session_store`:
a role (`"user"` or `"model"`) and a list of text parts
(`core/gemini_service.py` lines 15-17). -/
structure GMsg where
  role : String
  parts : List String
deriving DecidableEq

/-- The in-memory session store `_session_store : dict[str, list]`, embedded
as an insertion-ordered association list (Python dicts preserve insertion
order and have unique keys). -/
abbrev Store := List (String × List GMsg)

/-- Dictionary membership/lookup on the store (`session_id in _session_store`,
`_session_store.get(session_id, ...)`). -/
def storeLookup : Store → String → Option (List GMsg)
  | [], _ => none
  | (k, v) :: rest, sid => if k = sid then some v else storeLookup rest sid

/-- Dictionary assignment `_session_store[session_id] = h`: overwrite the
existing key in place, or append a new key at the end. -/
def storeSet : Store → String → List GMsg → Store
  | [], sid, h => [(sid, h)]
  | (k, v) :: rest, sid, h =>
    if k = sid then (k, h) :: rest else (k, v) :: storeSet rest sid h

/-- Dictionary deletion `del _session_store[session_id]`.  Store keys are
unique (Python dict), so removing every pair with the key models the
single-key delete. -/
def storeErase : Store → String → Store
  | [], _ => []
  | (k, v) :: rest, sid =>
    if k = sid then storeErase rest sid else (k, v) :: storeErase rest sid

/-- The history currently stored for a session id (empty when absent). -/
def histOf (store : Store) (sid : String) : List GMsg :=
  (storeLookup store sid).getD []

/-- `_get_or_create_session` (`core/gemini_service.py` lines 28-32): insert
an empty history when the id is absent.  Returns the updated store; the
history it hands back is `histOf` of that store. -/
def getOrCreateSession (store : Store) (sid : String) : Store :=
  match storeLookup store sid with
  | some _ => store
  | none => storeSet store sid []

/-- `clear_session` (`core/gemini_service.py` lines 83-88): delete the
session and report `true` when it existed, `false` otherwise. -/
def clear_session (store : Store) (sid : String) : Bool × Store :=
  match storeLookup store sid with
  | some _ => (true, storeErase store sid)
  | none => (false, store)

/-- `list_sessions` (`core/gemini_service.py` lines 91-93). -/
def list_sessions (store : Store) : List String :=
  store.map (fun kv => kv.1)

/-- One entry of the history returned by `get_session_history`:
`{"role": ..., "text": ...}`. -/
structure HMsg where
  role : String
  text : String
deriving DecidableEq

/-- `get_session_history` (`core/gemini_service.py` lines 66-80): a pure
read (`_session_store.get(session_id, [])` never inserts); each stored
turn is flattened to its role and the concatenation of its text parts. -/
def get_session_history (store : Store) (sid : String) : List HMsg :=
  (histOf store sid).map fun turn =>
    ⟨turn.role, turn.parts.foldl (fun a p => a ++ p) ""⟩

/-- The remote stateful reasoning call (`model.start_chat(history=...)` then
`send_message`): from the prior history and the user message it produces
the reply text together with the full updated history
(`chat_session.history`), or raises. -/
abbrev ChatProvider := List GMsg → String → Except String (String × List GMsg)

/-- The remote stateless reasoning call (`model.generate_content`). -/
abbrev GenProvider := String → Except String String

/-- Python truthiness of the optional `session_id` argument
(`if session_id:`): `None` and the empty string select stateless mode. -/
def truthyId : Option String → Option String
  | some s => if s = "" then none else some s
  | none => none

/-- `chat` (`core/gemini_service.py` lines 35-63).  Stateful mode first runs
`_get_or_create_session` (which may insert an empty entry), then the remote
call; only on success is the updated history written back, and the
pre-existing insert survives a failed call because the store is a module
global.  Stateless mode never touches the store. -/
def chat (sendMessage : ChatProvider) (generateContent : GenProvider)
    (store : Store) (userMessage : String) (sessionId : Option String) :
    Except String (String × String) × Store :=
  match truthyId sessionId with
  | some sid =>
    let store1 := getOrCreateSession store sid
    match sendMessage (histOf store1 sid) userMessage with
    | .error e => (.error e, store1)
    | .ok (text, newHist) => (.ok (text, sid), storeSet store1 sid newHist)
  | none =>
    match generateContent userMessage with
    | .error e => (.error e, store)
    | .ok t => (.ok (t, ""), store)

/-- A remote speech-to-text provider call: audio bytes in, raw response
text out, or an exception.  (Mime-type selection from the filename is
config plumbing and is elided.) -/
abbrev SttRemote := List Nat → Except String String

/-- Whether the second character list leads the first
(`str.startswith`, on exploded strings). -/
def leadsWith : List Char → List Char → Bool
  | _, [] => true
  | [], _ :: _ => false
  | c :: cs, d :: ds => (c = d) && leadsWith cs ds

/-- Python `str.lower()`, character by character. -/
def strLower (s : String) : String :=
  ⟨s.data.map Char.toLower⟩

/-- Python `str.strip()`: drop whitespace from both ends. -/
def strTrim (s : String) : String :=
  ⟨((s.data.dropWhile Char.isWhitespace).reverse.dropWhile
      Char.isWhitespace).reverse⟩

/-- Python slicing `s[n:]` (by characters). -/
def strDrop (s : String) (n : Nat) : String :=
  ⟨s.data.drop n⟩

/-- Python slicing `s[:n]` (by characters). -/
def strTake (s : String) (n : Nat) : String :=
  ⟨s.data.take n⟩

/-- Case-insensitive leading-match test
(`s.lower().startswith(p.lower())`). -/
def startsWithCI (s p : String) : Bool :=
  leadsWith (strLower s).data (strLower p).data

/-- The fixed list of meta-commentary strings stripped by `_stt_gemini`
(`core/elevenlabs_service.py` line 132). -/
def metaCommentaryList : List String :=
  ["Transcription:", "Transcript:", "The speaker says:", "Audio:", "Sure,"]

/-- One iteration of the stripping loop of `_stt_gemini` (lines 132-134):
if the accumulated transcript starts, case-insensitively, with the
candidate string, drop that many characters and strip whitespace. -/
def stripMetaStep (acc : String) (p : String) : String :=
  if startsWithCI acc p then strTrim (strDrop acc p.length) else acc

/-- The full post-processing of `_stt_gemini` (lines 129-136): strip the
raw response, then run the stripping loop over every candidate string in
order. -/
def sttPostprocess (raw : String) : String :=
  metaCommentaryList.foldl stripMetaStep (strTrim raw)

/-- `_stt_gemini` (`core/elevenlabs_service.py` lines 93-136): the remote
Gemini call followed by the post-processing; a provider exception
propagates unchanged. -/
def sttGemini (remote : SttRemote) (audio : List Nat) : Except String String :=
  (remote audio).map sttPostprocess

/-- `_stt_elevenlabs` (lines 139-168): the remote ElevenLabs call; the
response's `text` field is whitespace-stripped. -/
def sttElevenlabs (remote : SttRemote) (audio : List Nat) : Except String String :=
  (remote audio).map strTrim

/-- The composed error message raised when both providers fail
(`speech_to_text` lines 86-90). -/
def composedSttError (geminiErr elErr : String) : String :=
  "Both STT providers failed.\nGemini: " ++ geminiErr ++ "\nElevenLabs: " ++ elErr

/-- Result of one `speech_to_text` call, recording which providers were
invoked along the way. -/
structure SttTrace where
  calledPrimary : Bool
  calledSecondary : Bool
  result : Except String String
deriving DecidableEq

/-- `speech_to_text` (`core/elevenlabs_service.py` lines 74-90): try the
Gemini primary; on any exception try the ElevenLabs fallback; if both
raise, raise the composed `RuntimeError`. -/
def speech_to_text (primRemote secRemote : SttRemote) (audio : List Nat) :
    SttTrace :=
  match sttGemini primRemote audio with
  | .ok t => ⟨true, false, .ok t⟩
  | .error geminiErr =>
    match sttElevenlabs secRemote audio with
    | .ok t => ⟨true, true, .ok t⟩
    | .error elErr => ⟨true, true, .error (composedSttError geminiErr elErr)⟩

/-- A remote text-to-speech call: text in, audio bytes out, or an
exception. -/
abbrev TtsRemote := String → Except String (List Nat)

/-- Result of one `text_to_speech` call, recording whether the remote
endpoint was contacted. -/
structure TtsTrace where
  remoteCalled : Bool
  result : Except String (List Nat)
deriving DecidableEq

/-- `text_to_speech` (`core/elevenlabs_service.py` lines 31-68): resolves
the voice/model configuration, builds the payload and posts it — there is
no validation of the text before the remote call.  The fixed voice
settings are config plumbing and are elided. -/
def text_to_speech (remote : TtsRemote) (text : String) : TtsTrace :=
  ⟨true, remote text⟩

/-- The boundary validation of `TTSRequest.text`
(`models/schemas.py` line 10): pydantic `max_length=5000`. -/
def ttsRequestTextValid (text : String) : Bool :=
  text.length ≤ 5000

/-- `ALLOWED_EXTENSIONS` of `routes/voice.py` line 17. -/
def allowedExtensions : List String :=
  ["mp3", "wav", "webm", "ogg", "m4a", "flac"]

/-- `filename.rsplit(".", 1)[-1].lower()` (`routes/voice.py` line 42): the
segment after the last dot, or the whole name when there is no dot. -/
def extOfFilename (filename : String) : String :=
  strLower ⟨filename.data.foldl
    (fun acc c => if c = '.' then [] else acc ++ [c]) []⟩

/-- The HTTP-level outcome of `/voice/talk`: either the streamed audio with
its truncated transcript/reply headers, or an `HTTPException`. -/
inductive VoiceResp
  | streamOk (audio : List Nat) (xTranscript xReply xSession : String)
  | httpError (status : Nat) (detail : String)
deriving DecidableEq

/-- Result of one `/voice/talk` request, with the store it leaves behind
and which downstream stages were invoked. -/
structure VoiceTrace where
  resp : VoiceResp
  store : Store
  llmCalled : Bool
  ttsCalled : Bool
deriving DecidableEq

/-- `voice_to_voice` (`routes/voice.py` lines 29-82): extension check,
empty-audio check, STT (502 on failure, 422 on empty transcript), `chat`
(502 on failure), TTS (502 on failure), then the streaming response whose
headers carry the transcript and reply truncated to 200 characters. -/
def voice_to_voice (primRemote secRemote : SttRemote)
    (sendMessage : ChatProvider) (generateContent : GenProvider)
    (ttsRemote : TtsRemote) (filename : String) (audioBytes : List Nat)
    (sessionId : Option String) (store : Store) : VoiceTrace :=
  if extOfFilename filename ∉ allowedExtensions then
    ⟨.httpError 400 ("Unsupported audio format: ." ++ extOfFilename filename),
      store, false, false⟩
  else if audioBytes = [] then
    ⟨.httpError 400 "Empty audio file.", store, false, false⟩
  else
    match (speech_to_text primRemote secRemote audioBytes).result with
    | .error e => ⟨.httpError 502 ("STT failed: " ++ e), store, false, false⟩
    | .ok transcript =>
      if transcript = "" then
        ⟨.httpError 422 "No speech detected in audio.", store, false, false⟩
      else
        match chat sendMessage generateContent store transcript sessionId with
        | (.error e, store1) =>
          ⟨.httpError 502 ("Gemini error: " ++ e), store1, true, false⟩
        | (.ok (replyText, _), store1) =>
          match (text_to_speech ttsRemote replyText).result with
          | .error e => ⟨.httpError 502 ("TTS failed: " ++ e), store1, true, true⟩
          | .ok replyAudio =>
            ⟨.streamOk replyAudio (strTake transcript 200) (strTake replyText 200)
              (sessionId.getD ""), store1, true, true⟩

/-- An outbound WebSocket protocol event of `routes/websocket_voice.py`. -/
inductive WsEvent
  | connectedEvt (sessionId message : String)
  | transcriptEvt (text : String)
  | replyTextEvt (text : String)
  | audioBytesEvt (bytes : List Nat)
  | doneEvt
  | errorEvt (message : String)
  | pongEvt
  | memoryClearedEvt (sessionId : String)
deriving DecidableEq

/-- An inbound WebSocket frame, after the receive/parse step of the
handler.  A text frame is classified by what `json.loads` plus `cmd.get`
would do with it: `textMalformed` for invalid JSON (`json.JSONDecodeError`),
`textNonObject` for valid JSON that is not an object — whose `.get` call
raises an `AttributeError` carrying the given message — and `textCommand`
for an object, with its optional string `action` field and its `message`
field defaulted to the empty string. -/
inductive InFrame
  | binary (bytes : List Nat)
  | textMalformed
  | textNonObject (attrErrMsg : String)
  | textCommand (action : Option String) (message : String)
deriving DecidableEq

/-- Result of processing one inbound frame in the `while True` loop of
`websocket_voice`: the events sent, the store left behind, whether the
loop continues to the next frame (`keepOpen = false` models an exception
escaping to the outer handler, which sends one final error event and
returns, closing the connection), and whether the reasoning stage was
invoked. -/
structure WsStepResult where
  events : List WsEvent
  store : Store
  keepOpen : Bool
  llmCalled : Bool
deriving DecidableEq

/-- One iteration of the frame loop of `websocket_voice`
(`routes/websocket_voice.py` lines 48-154).  Binary frames run the
STT → chat → TTS pipeline, each failure sending one `error` event and
continuing the loop.  Text frames are parsed as JSON control commands:
invalid JSON is swallowed (`except json.JSONDecodeError: pass`), a
non-object JSON value makes `cmd.get("action")` raise an `AttributeError`
that escapes to the outer handler (one `Unexpected error` event, loop
over), and a `chat_text` command whose `chat` call raises escapes the same
way. -/
def ws_step (primRemote secRemote : SttRemote) (sendMessage : ChatProvider)
    (generateContent : GenProvider) (ttsRemote : TtsRemote)
    (sid : String) (store : Store) (frame : InFrame) : WsStepResult :=
  match frame with
  | .binary audioBytes =>
    if audioBytes = [] then
      ⟨[.errorEvt "Empty audio received."], store, true, false⟩
    else
      match (speech_to_text primRemote secRemote audioBytes).result with
      | .error e => ⟨[.errorEvt ("STT failed: " ++ e)], store, true, false⟩
      | .ok transcript =>
        if transcript = "" then
          ⟨[.errorEvt "No speech detected."], store, true, false⟩
        else
          match chat sendMessage generateContent store transcript (some sid) with
          | (.error e, store1) =>
            ⟨[.transcriptEvt transcript, .errorEvt ("LLM failed: " ++ e)],
              store1, true, true⟩
          | (.ok (replyText, _), store1) =>
            match (text_to_speech ttsRemote replyText).result with
            | .error e =>
              ⟨[.transcriptEvt transcript, .replyTextEvt replyText,
                .errorEvt ("TTS failed: " ++ e)], store1, true, true⟩
            | .ok replyAudio =>
              ⟨[.transcriptEvt transcript, .replyTextEvt replyText,
                .audioBytesEvt replyAudio, .doneEvt], store1, true, true⟩
  | .textMalformed => ⟨[], store, true, false⟩
  | .textNonObject attrErrMsg =>
    ⟨[.errorEvt ("Unexpected error: " ++ attrErrMsg)], store, false, false⟩
  | .textCommand action message =>
    match action with
    | some a =>
      if a = "ping" then
        ⟨[.pongEvt], store, true, false⟩
      else if a = "clear_memory" then
        ⟨[.memoryClearedEvt sid], (clear_session store sid).2, true, false⟩
      else if a = "chat_text" then
        if message = "" then
          ⟨[], store, true, false⟩
        else
          match chat sendMessage generateContent store message (some sid) with
          | (.error e, store1) =>
            ⟨[.errorEvt ("Unexpected error: " ++ e)], store1, false, true⟩
          | (.ok (replyText, _), store1) =>
            ⟨[.replyTextEvt replyText], store1, true, true⟩
      else ⟨[], store, true, false⟩
    | none => ⟨[], store, true, false⟩

/-- The `SessionClearResponse` schema (`models/schemas.py` lines 57-60). -/
structure SessionClearResponse where
  session_id : String
  cleared : Bool
  message : String
deriving DecidableEq

/-- The `DELETE /chat/session/{session_id}` route (`routes/chat.py` lines
63-74): call `clear_session` and report the outcome without error. -/
def delete_session (store : Store) (sid : String) :
    SessionClearResponse × Store :=
  let r := clear_session store sid
  (⟨sid, r.1, if r.1 then "Session cleared." else "Session not found."⟩, r.2)

/-- The `SessionHistoryResponse` schema (`models/schemas.py` lines 51-54). -/
structure SessionHistoryResponse where
  session_id : String
  history : List HMsg
  turn_count : Nat
deriving DecidableEq

/-- The `GET /chat/session/{session_id}/history` route (`routes/chat.py`
lines 49-60): a pure read of `get_session_history` with the turn count. -/
def get_history_route (store : Store) (sid : String) :
    SessionHistoryResponse :=
  ⟨sid, get_session_history store sid, (get_session_history store sid).length⟩

/-- Whether an `Except` value is a success. -/
def exceptIsOk : Except String String → Bool
  | .ok _ => true
  | .error _ => false

/-- Whether a WebSocket event is an `error` event. -/
def isErrorEvt : WsEvent → Bool
  | .errorEvt _ => true
  | _ => false

/-- Number of `error` events in an emission sequence. -/
def errCount (es : List WsEvent) : Nat :=
  (es.filter isErrorEvt).length

/-- The single-prefix reading of the `_stt_gemini` post-processing: strip
the raw text, remove at most one leading meta-commentary string (the first
matching one), and strip again.  (Stated from the claim's wording, for
comparison with `sttPostprocess`.) -/
def sttPostprocessClaim (raw : String) : String :=
  match metaCommentaryList.find? (fun p => startsWithCI (strTrim raw) p) with
  | some p => strTrim (strDrop (strTrim raw) p.length)
  | none => strTrim raw

/-- The sequential description of the actual `_stt_gemini` stripping loop:
every candidate string in the fixed list is checked once, in order,
against the current transcript, and removed (with re-trimming) whenever it
is a case-insensitive leading match — so several distinct candidates can
be removed in one pass. -/
def stripMetaSeq : List String → String → String
  | [], t => t
  | p :: ps, t =>
    if startsWithCI t p then
      stripMetaSeq ps (strTrim (strDrop t p.length))
    else
      stripMetaSeq ps t

/-- Concrete provider stubs used by witnesses and counterexamples. -/
def primRemoteFail : SttRemote := fun _ => .error "gboom"

def primRemoteHello : SttRemote := fun _ => .ok "hello"

def primRemoteEmpty : SttRemote := fun _ => .ok ""

def secRemoteHi : SttRemote := fun _ => .ok " hi "

def secRemoteFail : SttRemote := fun _ => .error "eboom"

def secRemoteStub : SttRemote := fun _ => .error "unused"

def chatProviderOk : ChatProvider := fun h m =>
  .ok ("reply:" ++ m, h ++ [⟨"user", [m]⟩, ⟨"model", ["reply:" ++ m]⟩])

def chatProviderFail : ChatProvider := fun _ _ => .error "boom"

def genStub : GenProvider := fun m => .ok ("gen:" ++ m)

def ttsRemoteOk : TtsRemote := fun _ => .ok [1, 2, 3]

def ttsRemoteFail : TtsRemote := fun _ => .error "tboom"

/-- A 5001-character text, above the boundary ceiling. -/
def bigText : String := String.mk (List.replicate 5001 'a')

/-! ### Store lemmas -/

theorem storeLookup_set_self (store : Store) (sid : String) (h : List GMsg) :
    storeLookup (storeSet store sid h) sid = some h := by
  induction store with
  | nil => simp [storeSet, storeLookup]
  | cons kv rest ih =>
    obtain ⟨k, v⟩ := kv
    by_cases hk : k = sid
    · simp [storeSet, storeLookup, hk]
    · simp [storeSet, storeLookup, hk, ih]

theorem storeLookup_set_ne (store : Store) (sid other : String) (h : List GMsg)
    (hne : other ≠ sid) :
    storeLookup (storeSet store sid h) other = storeLookup store other := by
  induction store with
  | nil => simp [storeSet, storeLookup, hne.symm]
  | cons kv rest ih =>
    obtain ⟨k, v⟩ := kv
    by_cases hk : k = sid
    · subst hk
      simp [storeSet, storeLookup, hne.symm]
    · simp [storeSet, storeLookup, hk, ih]

theorem storeLookup_erase_self (store : Store) (sid : String) :
    storeLookup (storeErase store sid) sid = none := by
  induction store with
  | nil => simp [storeErase, storeLookup]
  | cons kv rest ih =>
    obtain ⟨k, v⟩ := kv
    by_cases hk : k = sid <;> simp [storeErase, storeLookup, hk, ih]

theorem histOf_getOrCreate (store : Store) (sid : String) :
    histOf (getOrCreateSession store sid) sid = histOf store sid := by
  unfold getOrCreateSession
  cases hl : storeLookup store sid with
  | some v => rfl
  | none => simp [histOf, hl, storeLookup_set_self]

theorem storeLookup_getOrCreate_ne (store : Store) (sid other : String)
    (hne : other ≠ sid) :
    storeLookup (getOrCreateSession store sid) other = storeLookup store other := by
  unfold getOrCreateSession
  cases storeLookup store sid with
  | some v => rfl
  | none => exact storeLookup_set_ne store sid other [] hne

/-- In stateful mode (nonempty session id), `chat` is `_get_or_create_session`
followed by the remote call, with write-back only on success. -/
theorem chat_stateful (sendMessage : ChatProvider) (generateContent : GenProvider)
    (store : Store) (userMessage sid : String) (hsid : sid ≠ "") :
    chat sendMessage generateContent store userMessage (some sid) =
      match sendMessage (histOf (getOrCreateSession store sid) sid) userMessage with
      | .error e => (.error e, getOrCreateSession store sid)
      | .ok (text, newHist) =>
        (.ok (text, sid), storeSet (getOrCreateSession store sid) sid newHist) := by
  have ht : truthyId (some sid) = some sid := by
    show (if sid = "" then none else some sid) = some sid
    rw [if_neg hsid]
  unfold chat
  rw [ht]

/-- The stripping loop of `_stt_gemini` is the sequential pass
`stripMetaSeq` over the candidate list. -/
theorem foldl_stripMetaStep_eq_seq (ps : List String) (t : String) :
    ps.foldl stripMetaStep t = stripMetaSeq ps t := by
  induction ps generalizing t with
  | nil => rfl
  | cons p ps ih =>
    simp only [List.foldl_cons, stripMetaSeq, stripMetaStep]
    by_cases hs : startsWithCI t p <;> simp [hs, ih]

theorem bigText_length : bigText.length = 5001 := by
  show (List.replicate 5001 'a').length = 5001
  rw [List.length_replicate]

/-! ### Claim theorems -/

/-- C1 (counterexample): the claim says a failed stateful reasoning call
creates or changes no history entry for the session.  But on a fresh
session id, `chat` runs `_get_or_create_session` before the remote call,
so the failed call leaves a new (empty) history entry in the store. -/
theorem c1_counterexample :
    (chat chatProviderFail genStub [] "hi" (some "s1")).1 = .error "boom" ∧
    storeLookup ([] : Store) "s1" = none ∧
    storeLookup (chat chatProviderFail genStub [] "hi" (some "s1")).2 "s1"
      = some [] := by decide

/-- C1 (amended): a failed stateful reasoning call appends no messages —
the session's message sequence is unchanged (still whatever it was, empty
for a fresh id) and every other session entry is untouched — but an empty
history entry may be created for a previously unknown session id. -/
theorem c1_amended (sendMessage : ChatProvider) (generateContent : GenProvider)
    (store : Store) (userMessage sid e other : String) (hsid : sid ≠ "")
    (hother : other ≠ sid)
    (hfail : sendMessage (histOf (getOrCreateSession store sid) sid) userMessage
      = .error e) :
    (chat sendMessage generateContent store userMessage (some sid)).1 = .error e ∧
    histOf (chat sendMessage generateContent store userMessage (some sid)).2 sid
      = histOf store sid ∧
    storeLookup (chat sendMessage generateContent store userMessage (some sid)).2
      other = storeLookup store other := by
  rw [chat_stateful sendMessage generateContent store userMessage sid hsid, hfail]
  exact ⟨rfl, histOf_getOrCreate store sid,
    storeLookup_getOrCreate_ne store sid other hother⟩

/-- C1 (witness): the amended theorem at a concrete failing provider and a
store that already holds one turn for the session. -/
theorem c1_amended_witness :
    (chat chatProviderFail genStub [("s1", [⟨"user", ["x"]⟩])] "hi"
      (some "s1")).1 = .error "boom" :=
  (c1_amended chatProviderFail genStub [("s1", [⟨"user", ["x"]⟩])] "hi" "s1"
    "boom" "s2" (by decide) (by decide) (by decide)).1

/-- C2: `speech_to_text` always calls the primary (Gemini) provider; the
secondary (ElevenLabs) provider is called exactly when the primary raises;
a secondary success yields the secondary's text; two failures yield the
single composed error built from both underlying errors. -/
theorem c2_fallback (primRemote secRemote : SttRemote) (audio : List Nat)
    (t geminiErr elErr : String) :
    (speech_to_text primRemote secRemote audio).calledPrimary = true ∧
    (speech_to_text primRemote secRemote audio).calledSecondary
      = !exceptIsOk (sttGemini primRemote audio) ∧
    (sttGemini primRemote audio = .ok t →
      (speech_to_text primRemote secRemote audio).result = .ok t ∧
      (speech_to_text primRemote secRemote audio).calledSecondary = false) ∧
    (sttGemini primRemote audio = .error geminiErr →
      sttElevenlabs secRemote audio = .ok t →
      (speech_to_text primRemote secRemote audio).result = .ok t) ∧
    (sttGemini primRemote audio = .error geminiErr →
      sttElevenlabs secRemote audio = .error elErr →
      (speech_to_text primRemote secRemote audio).result
        = .error (composedSttError geminiErr elErr)) := by
  cases hg : sttGemini primRemote audio with
  | ok t0 =>
    have hs : speech_to_text primRemote secRemote audio = ⟨true, false, .ok t0⟩ := by
      simp [speech_to_text, hg]
    rw [hs]
    exact ⟨rfl, rfl, fun h => ⟨h, rfl⟩, fun h1 => Except.noConfusion h1,
      fun h1 => Except.noConfusion h1⟩
  | error g0 =>
    cases he : sttElevenlabs secRemote audio with
    | ok t0 =>
      have hs : speech_to_text primRemote secRemote audio = ⟨true, true, .ok t0⟩ := by
        simp [speech_to_text, hg, he]
      rw [hs]
      exact ⟨rfl, rfl, fun h => Except.noConfusion h, fun h1 h2 => h2,
        fun h1 h2 => Except.noConfusion h2⟩
    | error e0 =>
      have hs : speech_to_text primRemote secRemote audio
          = ⟨true, true, .error (composedSttError g0 e0)⟩ := by
        simp [speech_to_text, hg, he]
      rw [hs]
      refine ⟨rfl, rfl, fun h => Except.noConfusion h,
        fun h1 h2 => Except.noConfusion h2, fun h1 h2 => ?_⟩
      injection h1 with h1
      injection h2 with h2
      rw [h1, h2]

/-- C2 (witness): primary fails, secondary succeeds, and the secondary's
(trimmed) text is returned. -/
theorem c2_fallback_witness :
    (speech_to_text primRemoteFail secRemoteHi [0]).result = .ok "hi" :=
  (c2_fallback primRemoteFail secRemoteHi [0] "hi" "gboom" "x").2.2.2.1
    (by decide) (by decide)

/-- C3 (counterexample): the claim says the request/response endpoint also
surfaces transcript and reply text when only synthesis fails.  But with a
successful transcription ("hello") and reasoning and a failing TTS,
`/voice/talk` raises a bare 502 carrying neither text. -/
theorem c3_counterexample :
    (voice_to_voice primRemoteHello secRemoteStub chatProviderOk genStub
      ttsRemoteFail "a.webm" [1] (some "s1") []).resp
      = .httpError 502 "TTS failed: tboom" := by decide

/-- C3 (amended): when transcription and reasoning succeed and synthesis
fails, the streaming connection still delivers the transcript and
reply-text events before the error event; the request/response endpoint
instead returns a 502 stage error without those texts. -/
theorem c3_amended (primRemote secRemote : SttRemote) (sendMessage : ChatProvider)
    (generateContent : GenProvider) (ttsRemote : TtsRemote)
    (sid filename : String) (audio : List Nat) (store store1 : Store)
    (t replyText rsid e : String)
    (hext : extOfFilename filename ∈ allowedExtensions)
    (haudio : audio ≠ [])
    (hstt : (speech_to_text primRemote secRemote audio).result = .ok t)
    (ht : t ≠ "")
    (hchat : chat sendMessage generateContent store t (some sid)
      = (.ok (replyText, rsid), store1))
    (htts : (text_to_speech ttsRemote replyText).result = .error e) :
    ws_step primRemote secRemote sendMessage generateContent ttsRemote sid store
        (.binary audio)
      = ⟨[.transcriptEvt t, .replyTextEvt replyText,
          .errorEvt ("TTS failed: " ++ e)], store1, true, true⟩ ∧
    voice_to_voice primRemote secRemote sendMessage generateContent ttsRemote
        filename audio (some sid) store
      = ⟨.httpError 502 ("TTS failed: " ++ e), store1, true, true⟩ := by
  constructor
  · simp [ws_step, haudio, hstt, ht, hchat, htts]
  · simp [voice_to_voice, hext, haudio, hstt, ht, hchat, htts]

/-- C3 (witness): the amended theorem at concrete providers, with the
chat provider appending the turn to a fresh "s1" session. -/
theorem c3_amended_witness :
    voice_to_voice primRemoteHello secRemoteStub chatProviderOk genStub
        ttsRemoteFail "a.webm" [1] (some "s1") []
      = ⟨.httpError 502 ("TTS failed: " ++ "tboom"),
          [("s1", [⟨"user", ["hello"]⟩, ⟨"model", ["reply:hello"]⟩])],
          true, true⟩ :=
  (c3_amended primRemoteHello secRemoteStub chatProviderOk genStub ttsRemoteFail
    "s1" "a.webm" [1] []
    [("s1", [⟨"user", ["hello"]⟩, ⟨"model", ["reply:hello"]⟩])]
    "hello" "reply:hello" "s1" "tboom"
    (by decide) (by decide) (by decide) (by decide) (by decide) (by decide)).2

/-- C4 (counterexample): the claim says a failing `chat_text` turn leaves
the connection open.  But a `chat_text` command whose reasoning call
raises escapes the inner `except json.JSONDecodeError` handler, reaches
the outer handler, and the loop — hence the connection — ends after the
single error event. -/
theorem c4_counterexample :
    ws_step primRemoteHello secRemoteStub chatProviderFail genStub ttsRemoteOk
        "s1" [] (.textCommand (some "chat_text") "hi")
      = ⟨[.errorEvt "Unexpected error: boom"], [("s1", [])], false, true⟩ := by
  decide

/-- C4 (amended): every binary (audio) turn keeps the connection open and
emits at most one error event — exactly one iff the turn did not complete
(`done` is emitted iff no error was) — while a `chat_text` turn whose
reasoning call raises emits a single error event and closes the
connection. -/
theorem c4_amended (primRemote secRemote : SttRemote) (sendMessage : ChatProvider)
    (generateContent : GenProvider) (ttsRemote : TtsRemote)
    (sid msg e : String) (store store1 : Store) (audio : List Nat)
    (hmsg : msg ≠ "")
    (hchat : chat sendMessage generateContent store msg (some sid)
      = (.error e, store1)) :
    ((ws_step primRemote secRemote sendMessage generateContent ttsRemote sid
        store (.binary audio)).keepOpen = true ∧
      errCount (ws_step primRemote secRemote sendMessage generateContent
        ttsRemote sid store (.binary audio)).events ≤ 1 ∧
      (WsEvent.doneEvt ∈ (ws_step primRemote secRemote sendMessage
          generateContent ttsRemote sid store (.binary audio)).events ↔
        errCount (ws_step primRemote secRemote sendMessage generateContent
          ttsRemote sid store (.binary audio)).events = 0)) ∧
    ws_step primRemote secRemote sendMessage generateContent ttsRemote sid store
        (.textCommand (some "chat_text") msg)
      = ⟨[.errorEvt ("Unexpected error: " ++ e)], store1, false, true⟩ := by
  constructor
  · by_cases ha : audio = []
    · simp [ws_step, ha, errCount, isErrorEvt]
    · cases hstt : (speech_to_text primRemote secRemote audio).result with
      | error e2 => simp [ws_step, ha, hstt, errCount, isErrorEvt]
      | ok t =>
        by_cases ht : t = ""
        · simp [ws_step, ha, hstt, ht, errCount, isErrorEvt]
        · rcases hc : chat sendMessage generateContent store t (some sid)
            with ⟨res, st1⟩
          cases res with
          | error e2 =>
            simp [ws_step, ha, hstt, ht, hc, errCount, isErrorEvt]
          | ok pr =>
            obtain ⟨rt, rs⟩ := pr
            cases htts : (text_to_speech ttsRemote rt).result with
            | error e2 =>
              simp [ws_step, ha, hstt, ht, hc, htts, errCount, isErrorEvt]
            | ok audioOut =>
              simp [ws_step, ha, hstt, ht, hc, htts, errCount, isErrorEvt]
  · simp [ws_step, hmsg, hchat]

/-- C4 (witness): the amended theorem at a concrete failing reasoning
provider on a fresh "s2" session. -/
theorem c4_amended_witness :
    ws_step primRemoteHello secRemoteStub chatProviderFail genStub ttsRemoteOk
        "s2" [] (.textCommand (some "chat_text") "yo")
      = ⟨[.errorEvt ("Unexpected error: " ++ "boom")], [("s2", [])],
          false, true⟩ :=
  (c4_amended primRemoteHello secRemoteStub chatProviderFail genStub ttsRemoteOk
    "s2" "yo" "boom" [] [("s2", [])] [7] (by decide) (by decide)).2

/-- C5 (counterexample): the claim says the synthesis gateway rejects
over-long text before any remote call.  But `text_to_speech` performs no
length check: on a 5001-character text the remote call is still made. -/
theorem c5_counterexample :
    (text_to_speech ttsRemoteOk bigText).remoteCalled = true ∧
    5000 < bigText.length := by
  refine ⟨rfl, ?_⟩
  rw [bigText_length]
  decide

/-- C5 (amended): the synthesis gateway itself never rejects: it always
attempts the remote call, whatever the text length; the 5000-character
ceiling is enforced only by the boundary `TTSRequest` schema, which marks
any longer text invalid. -/
theorem c5_amended (remote : TtsRemote) (text : String)
    (hlong : 5000 < text.length) :
    (text_to_speech remote text).remoteCalled = true ∧
    (text_to_speech remote text).result = remote text ∧
    ttsRequestTextValid text = false := by
  refine ⟨rfl, rfl, ?_⟩
  unfold ttsRequestTextValid
  exact decide_eq_false (not_le.mpr hlong)

/-- C5 (witness): the amended theorem at the concrete 5001-character
text. -/
theorem c5_amended_witness :
    (text_to_speech ttsRemoteOk bigText).remoteCalled = true ∧
    (text_to_speech ttsRemoteOk bigText).result = ttsRemoteOk bigText ∧
    ttsRequestTextValid bigText = false :=
  c5_amended ttsRemoteOk bigText (by rw [bigText_length]; decide)

/-- C6 (counterexample): the claim says every non-command text frame is
silently ignored.  But a frame holding valid JSON that is not an object
(for example `[1, 2, 3]`) makes `cmd.get` raise an `AttributeError`, which
escapes to the outer handler: one error event is sent and the connection
loop ends. -/
theorem c6_counterexample :
    ws_step primRemoteHello secRemoteStub chatProviderOk genStub ttsRemoteOk
        "s1" [] (.textNonObject "list object has no attribute get")
      = ⟨[.errorEvt ("Unexpected error: " ++ "list object has no attribute get")],
          [], false, false⟩ := by decide

/-- C6 (amended): frames whose text is invalid JSON, and frames holding a
JSON object without a recognized action (or without a string action at
all), are silently ignored — no event, no state change, connection open;
but a frame holding a non-object JSON value raises, emits one error event,
and closes the connection. -/
theorem c6_amended (primRemote secRemote : SttRemote) (sendMessage : ChatProvider)
    (generateContent : GenProvider) (ttsRemote : TtsRemote)
    (sid a msg : String) (store : Store)
    (ha1 : a ≠ "ping") (ha2 : a ≠ "clear_memory") (ha3 : a ≠ "chat_text") :
    ws_step primRemote secRemote sendMessage generateContent ttsRemote sid store
        .textMalformed = ⟨[], store, true, false⟩ ∧
    ws_step primRemote secRemote sendMessage generateContent ttsRemote sid store
        (.textCommand none msg) = ⟨[], store, true, false⟩ ∧
    ws_step primRemote secRemote sendMessage generateContent ttsRemote sid store
        (.textCommand (some a) msg) = ⟨[], store, true, false⟩ := by
  refine ⟨rfl, rfl, ?_⟩
  simp [ws_step, ha1, ha2, ha3]

/-- C6 (witness): the amended theorem at the unrecognized action
"bogus". -/
theorem c6_amended_witness :
    ws_step primRemoteHello secRemoteStub chatProviderOk genStub ttsRemoteOk
        "s1" [] (.textCommand (some "bogus") "m") = ⟨[], [], true, false⟩ :=
  (c6_amended primRemoteHello secRemoteStub chatProviderOk genStub ttsRemoteOk
    "s1" "bogus" "m" [] (by decide) (by decide) (by decide)).2.2

/-- C7: a transcription that succeeds with an empty transcript yields the
distinct no-speech outcome — the WebSocket sends the "No speech detected."
error and continues, the request/response endpoint returns 422 "No speech
detected in audio." (not the 502 used for provider failures) — with the
reasoning stage never invoked and the store unchanged. -/
theorem c7_no_speech (primRemote secRemote : SttRemote)
    (sendMessage : ChatProvider) (generateContent : GenProvider)
    (ttsRemote : TtsRemote) (sid filename : String) (sessionId : Option String)
    (audio : List Nat) (store : Store)
    (hext : extOfFilename filename ∈ allowedExtensions)
    (haudio : audio ≠ [])
    (hstt : (speech_to_text primRemote secRemote audio).result = .ok "") :
    ws_step primRemote secRemote sendMessage generateContent ttsRemote sid store
        (.binary audio)
      = ⟨[.errorEvt "No speech detected."], store, true, false⟩ ∧
    voice_to_voice primRemote secRemote sendMessage generateContent ttsRemote
        filename audio sessionId store
      = ⟨.httpError 422 "No speech detected in audio.", store, false, false⟩ := by
  constructor
  · simp [ws_step, haudio, hstt]
  · simp [voice_to_voice, hext, haudio, hstt]

/-- C7 (witness): the theorem at a provider that transcribes silence to
the empty string. -/
theorem c7_no_speech_witness :
    voice_to_voice primRemoteEmpty secRemoteStub chatProviderOk genStub
        ttsRemoteOk "a.webm" [1] (some "s1") []
      = ⟨.httpError 422 "No speech detected in audio.", [], false, false⟩ :=
  (c7_no_speech primRemoteEmpty secRemoteStub chatProviderOk genStub ttsRemoteOk
    "s1" "a.webm" (some "s1") [1] [] (by decide) (by decide) (by decide)).2

/-- C8: clearing a session then reading its history yields the empty
sequence; `clear_session` returns true iff a history existed; clearing a
non-existent session leaves the store untouched and returns false, and the
delete route reports it as "Session not found." without error. -/
theorem c8_clear_session (store : Store) (sid : String) :
    get_session_history (clear_session store sid).2 sid = [] ∧
    ((clear_session store sid).1 = true ↔ (storeLookup store sid).isSome = true) ∧
    (storeLookup store sid = none → clear_session store sid = (false, store)) ∧
    (delete_session store sid).1.cleared = (clear_session store sid).1 ∧
    (delete_session store sid).1.message
      = (if (clear_session store sid).1 then "Session cleared."
         else "Session not found.") := by
  cases hl : storeLookup store sid with
  | some v =>
    simp [clear_session, delete_session, hl, get_session_history, histOf,
      storeLookup_erase_self]
  | none =>
    simp [clear_session, delete_session, hl, get_session_history, histOf]

/-- C8 (witness): the theorem at an existing and at a missing session. -/
theorem c8_clear_session_witness :
    get_session_history (clear_session [("s1", [⟨"user", ["x"]⟩])] "s1").2 "s1"
      = [] ∧
    clear_session ([] : Store) "s2" = (false, []) :=
  ⟨(c8_clear_session [("s1", [⟨"user", ["x"]⟩])] "s1").1,
   (c8_clear_session ([] : Store) "s2").2.2.1 (by decide)⟩

/-- C9 (counterexample): the claim allows at most one leading
meta-commentary string to be removed.  But the loop checks each candidate
in turn against the already-stripped text: on "Transcript: Audio: hi" the
code strips both "Transcript:" and "Audio:" and returns "hi", while the
single-removal reading returns "Audio: hi". -/
theorem c9_counterexample :
    sttGemini (fun _ => .ok "Transcript: Audio: hi") [0] = .ok "hi" ∧
    sttPostprocessClaim "Transcript: Audio: hi" = "Audio: hi" := by decide

/-- C9 (amended): the gateway returns the provider's text whitespace-
trimmed, then passed once through the candidate list in order, removing
(and re-trimming after) every candidate that is a case-insensitive leading
match of the current text — so several distinct candidates may be removed
in one pass. -/
theorem c9_amended (remote : SttRemote) (audio : List Nat) (raw : String)
    (hremote : remote audio = .ok raw) :
    sttGemini remote audio
      = .ok (stripMetaSeq metaCommentaryList (strTrim raw)) := by
  unfold sttGemini
  rw [hremote]
  show Except.ok (sttPostprocess raw) = _
  rw [sttPostprocess, foldl_stripMetaStep_eq_seq]

/-- C9 (witness): the amended theorem at a concrete provider response. -/
theorem c9_amended_witness :
    sttGemini (fun _ => Except.ok " Sure, hi ") [0]
      = .ok (stripMetaSeq metaCommentaryList (strTrim " Sure, hi ")) :=
  c9_amended (fun _ => Except.ok " Sure, hi ") [0] " Sure, hi " rfl

/-- C10: reading the history of a session id with no stored history
through the history route returns the empty sequence with turn count zero
(never an error); `get_session_history` is a pure read
(`_session_store.get`) and creates no store entry. -/
theorem c10_empty_history (store : Store) (sid : String)
    (h : storeLookup store sid = none) :
    get_history_route store sid = ⟨sid, [], 0⟩ ∧
    get_session_history store sid = [] := by
  have hh : get_session_history store sid = [] := by
    unfold get_session_history histOf
    rw [h]
    rfl
  refine ⟨?_, hh⟩
  unfold get_history_route
  rw [hh]
  rfl

/-- C10 (witness): the theorem at the empty store. -/
theorem c10_empty_history_witness :
    get_history_route ([] : Store) "nope" = ⟨"nope", [], 0⟩ :=
  (c10_empty_history ([] : Store) "nope" (by decide)).1
